import Mathlib

/-!
Shallow embedding of `src/index.js`, a small Express relay with two
endpoints: `GET /rooms` (list bookable rooms via Microsoft Graph) and
`POST /book` (create a calendar event booking a room).  Each handler is
modelled as a pure function of the incoming request body and of an
environment that supplies the upstream responses; its result is the list
of outbound HTTP requests it issues, in order, together with either the
HTTP response it sends to the caller or the uncaught error that escapes
the handler.
-/

namespace BookingRelay

/-- JavaScript runtime values as they flow through the handlers: JSON
values plus `undefined`, which property access on a missing key yields. -/
inductive JsValue : Type where
  | undef : JsValue
  | null : JsValue
  | bool : Bool → JsValue
  | num : Int → JsValue
  | str : String → JsValue
  | arr : List JsValue → JsValue
  | obj : List (String × JsValue) → JsValue

/-- JavaScript property access `v.k`: the value of the first field named
`k` when `v` is an object that has one, `undefined` otherwise. -/
def jsField : JsValue → String → JsValue
  | .obj fields, k =>
    match fields.find? (fun p => p.1 == k) with
    | some p => p.2
    | none => .undef
  | _, _ => .undef

mutual
/-- String conversion of one array element in `Array.prototype.toString`:
`undefined` and `null` become the empty string. -/
def jsElemToString : JsValue → String
  | .undef => ""
  | .null => ""
  | .bool true => "true"
  | .bool false => "false"
  | .num n => toString n
  | .str s => s
  | .arr xs => jsArrayToString xs
  | .obj _ => "[object Object]"

/-- String conversion of a JavaScript array: elements joined with commas. -/
def jsArrayToString : List JsValue → String
  | [] => ""
  | [x] => jsElemToString x
  | x :: xs => jsElemToString x ++ "," ++ jsArrayToString xs
end

/-- JavaScript string coercion as performed by a template literal
interpolation such as the one building the events URL. -/
def jsToString : JsValue → String
  | .undef => "undefined"
  | .null => "null"
  | v => jsElemToString v

/-- Configuration constant inlined at the top of `src/index.js`. -/
def TENANT_ID : String := "YOUR_TENANT_ID"

/-- Configuration constant inlined at the top of `src/index.js`. -/
def CLIENT_ID : String := "YOUR_CLIENT_ID"

/-- Configuration constant inlined at the top of `src/index.js`. -/
def CLIENT_SECRET : String := "YOUR_CLIENT_SECRET"

/-- Body of an outbound request: absent, form-encoded (`URLSearchParams`),
or JSON. -/
inductive RequestBody : Type where
  | noBody : RequestBody
  | form : List (String × String) → RequestBody
  | json : JsValue → RequestBody

/-- An outbound HTTP request as issued through axios. -/
structure HttpRequest where
  method : String
  url : String
  headers : List (String × String)
  body : RequestBody

/-- A failed upstream call, as the error axios throws for it: it carries
the upstream status and response body. -/
structure UpstreamFailure where
  status : Nat
  body : JsValue

/-- The HTTP response a handler sends to its caller via `res.json`. -/
structure HttpResponse where
  status : Nat
  body : JsValue

/-- The environment of one handler invocation: what each upstream call
would return.  `tokenResp` is the identity endpoint's response body,
`graphResp` the directory or calendar endpoint's response body; either
may instead be a failure. -/
structure Env where
  tokenResp : Except UpstreamFailure JsValue
  graphResp : Except UpstreamFailure JsValue

/-- URL of the identity token endpoint, as built in `getToken`. -/
def tokenUrl : String :=
  "https://login.microsoftonline.com/" ++ TENANT_ID ++ "/oauth2/v2.0/token"

/-- The token-acquisition request issued by `getToken`: a POST with a
form-encoded body of the client-credentials fields and no headers set by
the code. -/
def tokenRequest : HttpRequest :=
  { method := "POST"
  , url := tokenUrl
  , headers := []
  , body := .form
      [ ("client_id", CLIENT_ID)
      , ("client_secret", CLIENT_SECRET)
      , ("scope", "https://graph.microsoft.com/.default")
      , ("grant_type", "client_credentials") ] }

/-- `getToken`: on a successful identity response it returns
`res.data.access_token`; on a failed one the error propagates. -/
def getToken (env : Env) : Except UpstreamFailure JsValue :=
  match env.tokenResp with
  | .error e => .error e
  | .ok data => .ok (jsField data "access_token")

/-- URL of the Graph rooms directory endpoint. -/
def roomsUrl : String :=
  "https://graph.microsoft.com/v1.0/places/microsoft.graph.room"

/-- The `Authorization: Bearer <token>` header attached to Graph calls. -/
def bearerHeader (token : JsValue) : List (String × String) :=
  [("Authorization", "Bearer " ++ jsToString token)]

/-- The directory read request issued by the `GET /rooms` handler. -/
def roomsRequest (token : JsValue) : HttpRequest :=
  { method := "GET", url := roomsUrl, headers := bearerHeader token
  , body := .noBody }

/-- The `GET /rooms` handler: fetch a token, issue one authenticated read
of the rooms directory, reply with `rooms.data.value`.  Errors from
either upstream call are not caught and escape the handler. -/
def handleRooms (env : Env) :
    List HttpRequest × Except UpstreamFailure HttpResponse :=
  match getToken env with
  | .error e => ([tokenRequest], .error e)
  | .ok token =>
    match env.graphResp with
    | .error e => ([tokenRequest, roomsRequest token], .error e)
    | .ok data =>
      ([tokenRequest, roomsRequest token], .ok ⟨200, jsField data "value"⟩)

/-- URL of the Graph events endpoint, with the caller-supplied user email
interpolated into the path by a template literal. -/
def eventsUrl (userEmail : JsValue) : String :=
  "https://graph.microsoft.com/v1.0/users/" ++ jsToString userEmail ++ "/events"

/-- The calendar-event JSON body built by the `POST /book` handler. -/
def eventBody (roomEmail startVal endVal : JsValue) : JsValue :=
  .obj
    [ ("subject", .str "Room Reservation")
    , ("start", .obj [("dateTime", startVal), ("timeZone", .str "UTC")])
    , ("end", .obj [("dateTime", endVal), ("timeZone", .str "UTC")])
    , ("attendees", .arr
        [ .obj
            [ ("emailAddress", .obj [("address", roomEmail)])
            , ("type", .str "resource") ] ])
    , ("isOnlineMeeting", .bool true)
    , ("onlineMeetingProvider", .str "teamsForBusiness") ]

/-- The calendar write request issued by the `POST /book` handler. -/
def bookRequest (userEmail roomEmail startVal endVal token : JsValue) :
    HttpRequest :=
  { method := "POST"
  , url := eventsUrl userEmail
  , headers := bearerHeader token
  , body := .json (eventBody roomEmail startVal endVal) }

/-- The `POST /book` handler: destructure the request body, fetch a
token, issue one authenticated calendar write, reply with
`meeting.data`.  Errors from either upstream call are not caught and
escape the handler. -/
def handleBook (reqBody : JsValue) (env : Env) :
    List HttpRequest × Except UpstreamFailure HttpResponse :=
  let userEmail := jsField reqBody "userEmail"
  let roomEmail := jsField reqBody "roomEmail"
  let startVal := jsField reqBody "start"
  let endVal := jsField reqBody "end"
  match getToken env with
  | .error e => ([tokenRequest], .error e)
  | .ok token =>
    match env.graphResp with
    | .error e =>
      ([tokenRequest, bookRequest userEmail roomEmail startVal endVal token],
       .error e)
    | .ok data =>
      ([tokenRequest, bookRequest userEmail roomEmail startVal endVal token],
       .ok ⟨200, data⟩)

/-- A JSON request body carrying the four booking input strings. -/
def bookingBody (u r s e : String) : JsValue :=
  .obj
    [ ("userEmail", .str u), ("roomEmail", .str r)
    , ("start", .str s), ("end", .str e) ]

/-- Host prefix of the Graph directory/calendar endpoints. -/
def graphHost : String := "https://graph.microsoft.com"

/-- Whether an outbound request targets the identity token endpoint. -/
def isIdentityRequest (q : HttpRequest) : Bool := q.url == tokenUrl

/-- Whether the first character list is an initial segment of the
second. -/
def strStarts : List Char → List Char → Bool
  | [], _ => true
  | _ :: _, [] => false
  | c :: cs, d :: ds => c == d && strStarts cs ds

/-- Whether an outbound request targets the Graph directory/calendar
service. -/
def isGraphRequest (q : HttpRequest) : Bool :=
  strStarts graphHost.data q.url.data

/-- Whether a request carries an `Authorization` header. -/
def hasAuthorization (q : HttpRequest) : Bool :=
  q.headers.any (fun p => p.1 == "Authorization")

/-- An authenticated write: a POST carrying an `Authorization` header. -/
def isAuthenticatedWrite (q : HttpRequest) : Bool :=
  q.method == "POST" && hasAuthorization q

/-- A read request. -/
def isReadRequest (q : HttpRequest) : Bool := q.method == "GET"

/-- Number of token-acquisition calls in a request trace. -/
def countIdentityCalls (l : List HttpRequest) : Nat :=
  (l.filter isIdentityRequest).length

/-- One incoming call to the service: either endpoint, with its caller
input and the upstream responses it will see. -/
inductive Invocation : Type where
  | rooms : Env → Invocation
  | book : JsValue → Env → Invocation

/-- Run one invocation. -/
def runOne : Invocation →
    List HttpRequest × Except UpstreamFailure HttpResponse
  | .rooms env => handleRooms env
  | .book b env => handleBook b env

/-- Run a sequence of invocations; the service holds no state, so this is
just each invocation run on its own. -/
def runAll (calls : List Invocation) :
    List (List HttpRequest × Except UpstreamFailure HttpResponse) :=
  calls.map runOne

/-- A Graph events URL never equals the identity token URL, whatever
strings fill their variable segments: the hosts differ at character 8. -/
lemma graph_users_url_ne_login_url (a b : String) :
    "https://graph.microsoft.com/v1.0/users/" ++ a ++ "/events"
      ≠ "https://login.microsoftonline.com/" ++ b ++ "/oauth2/v2.0/token" := by
  intro h
  have hd := congrArg String.data h
  rw [String.data_append, String.data_append, String.data_append,
    String.data_append] at hd
  have h8 := congrArg (fun l => l[8]?) hd
  simp only at h8
  rw [List.getElem?_append_left (by simp),
    List.getElem?_append_left (by decide),
    List.getElem?_append_left (by simp),
    List.getElem?_append_left (by decide)] at h8
  revert h8
  decide

/-- The calendar write request is never mistaken for a token call. -/
lemma isIdentityRequest_bookRequest (ue re sv ev tk : JsValue) :
    isIdentityRequest (bookRequest ue re sv ev tk) = false := by
  rw [isIdentityRequest, beq_eq_false_iff_ne]
  show eventsUrl ue ≠ tokenUrl
  rw [eventsUrl, tokenUrl]
  exact graph_users_url_ne_login_url (jsToString ue) TENANT_ID

/-- The directory read request is never mistaken for a token call. -/
lemma isIdentityRequest_roomsRequest (tk : JsValue) :
    isIdentityRequest (roomsRequest tk) = false := by
  show (roomsUrl == tokenUrl) = false
  decide

/-- The token request is recognised as a token call. -/
lemma isIdentityRequest_tokenRequest :
    isIdentityRequest tokenRequest = true := by
  decide

/-- Each `GET /rooms` invocation performs exactly one token call,
whatever the upstream responses are. -/
lemma countIdentityCalls_handleRooms (env : Env) :
    countIdentityCalls (handleRooms env).1 = 1 := by
  rcases env with ⟨tr, gr⟩
  cases tr <;> cases gr <;>
    simp [handleRooms, getToken, countIdentityCalls, List.filter,
      isIdentityRequest_tokenRequest, isIdentityRequest_roomsRequest]

/-- Each `POST /book` invocation performs exactly one token call,
whatever the caller input and the upstream responses are. -/
lemma countIdentityCalls_handleBook (b : JsValue) (env : Env) :
    countIdentityCalls (handleBook b env).1 = 1 := by
  rcases env with ⟨tr, gr⟩
  cases tr <;> cases gr <;>
    simp [handleBook, getToken, countIdentityCalls, List.filter,
      isIdentityRequest_tokenRequest, isIdentityRequest_bookRequest]

/-- Token calls in consecutive traces add up. -/
lemma countIdentityCalls_append (l1 l2 : List HttpRequest) :
    countIdentityCalls (l1 ++ l2)
      = countIdentityCalls l1 + countIdentityCalls l2 := by
  simp [countIdentityCalls, List.filter_append]

/-- C1: for every booking input and successful upstream responses, the
`POST /book` handler issues exactly one authenticated write request; its
URL carries the organizer email as the path segment, its JSON body
carries the room email as the single resource-type attendee and the
start/end inputs as dateTime objects with timeZone "UTC", and the
upstream response body is returned to the caller verbatim. -/
theorem book_single_mapped_write (u r s e : String) (tok meet : JsValue) :
    (handleBook (bookingBody u r s e) ⟨.ok tok, .ok meet⟩).1.filter
        isAuthenticatedWrite
      = [bookRequest (.str u) (.str r) (.str s) (.str e)
          (jsField tok "access_token")]
    ∧ (bookRequest (.str u) (.str r) (.str s) (.str e)
        (jsField tok "access_token")).url
      = "https://graph.microsoft.com/v1.0/users/" ++ u ++ "/events"
    ∧ (bookRequest (.str u) (.str r) (.str s) (.str e)
        (jsField tok "access_token")).body
      = .json (.obj
          [ ("subject", .str "Room Reservation")
          , ("start", .obj [("dateTime", .str s), ("timeZone", .str "UTC")])
          , ("end", .obj [("dateTime", .str e), ("timeZone", .str "UTC")])
          , ("attendees", .arr
              [ .obj
                  [ ("emailAddress", .obj [("address", .str r)])
                  , ("type", .str "resource") ] ])
          , ("isOnlineMeeting", .bool true)
          , ("onlineMeetingProvider", .str "teamsForBusiness") ])
    ∧ (handleBook (bookingBody u r s e) ⟨.ok tok, .ok meet⟩).2
      = .ok ⟨200, meet⟩ := by
  refine ⟨?_, ?_, ?_, ?_⟩ <;>
    simp [handleBook, getToken, bookingBody, jsField, isAuthenticatedWrite,
      hasAuthorization, tokenRequest, bookRequest, eventsUrl, eventBody,
      bearerHeader, jsToString, jsElemToString, List.filter]

/-- C2: for every successful credential response and successful directory
response, the `GET /rooms` handler issues exactly one read request, to the
directory endpoint, carrying the bearer credential, and returns the
response body's room collection (its `value` field) to the caller
unchanged. -/
theorem rooms_single_read_passthrough (tok dir : JsValue) :
    (handleRooms ⟨.ok tok, .ok dir⟩).1.filter isReadRequest
      = [roomsRequest (jsField tok "access_token")]
    ∧ (roomsRequest (jsField tok "access_token")).url
      = "https://graph.microsoft.com/v1.0/places/microsoft.graph.room"
    ∧ (roomsRequest (jsField tok "access_token")).headers
      = [("Authorization",
          "Bearer " ++ jsToString (jsField tok "access_token"))]
    ∧ (handleRooms ⟨.ok tok, .ok dir⟩).2 = .ok ⟨200, jsField dir "value"⟩ := by
  refine ⟨?_, ?_, ?_, ?_⟩ <;>
    simp [handleRooms, getToken, isReadRequest, roomsRequest, roomsUrl,
      bearerHeader, tokenRequest, List.filter]

/-- C3 counterexample: when the identity call fails with status 503 and a
body, the `GET /rooms` handler does not return any HTTP response to the
caller at all — in particular none carrying the upstream status and
body; the raw error escapes the handler instead. -/
theorem upstream_error_not_relayed_cex :
    (handleRooms ⟨.error ⟨503, .str "identity unavailable"⟩, .ok .null⟩).2
      = .error ⟨503, .str "identity unavailable"⟩
    ∧ ¬ ∃ resp : HttpResponse,
        (handleRooms ⟨.error ⟨503, .str "identity unavailable"⟩,
          .ok .null⟩).2 = .ok resp := by
  constructor
  · rfl
  · rintro ⟨resp, h⟩
    simp [handleRooms, getToken] at h

/-- C3 (amended): on every failing upstream call — identity, directory or
calendar — neither handler constructs an HTTP response; the raw upstream
error, with its status and body, escapes the handler uncaught and
unchanged (the caller then sees whatever the framework does with an
uncaught error, not a handler-built pass-through of the upstream
status). -/
theorem upstream_error_escapes_uncaught (f : UpstreamFailure)
    (t b : JsValue) (g : Except UpstreamFailure JsValue) :
    (handleRooms ⟨.error f, g⟩).2 = .error f
    ∧ (handleRooms ⟨.ok t, .error f⟩).2 = .error f
    ∧ (handleBook b ⟨.error f, g⟩).2 = .error f
    ∧ (handleBook b ⟨.ok t, .error f⟩).2 = .error f :=
  ⟨rfl, rfl, rfl, rfl⟩

/-- C4: when token acquisition fails, both handlers fail with that very
error, their trace is just the one token request, and no request at all
reaches the Graph directory/calendar host — in particular the calendar
write never happens. -/
theorem token_failure_no_graph_calls (f : UpstreamFailure)
    (g : Except UpstreamFailure JsValue) (b : JsValue) :
    (handleRooms ⟨.error f, g⟩).1 = [tokenRequest]
    ∧ (handleBook b ⟨.error f, g⟩).1 = [tokenRequest]
    ∧ (handleRooms ⟨.error f, g⟩).1.filter isGraphRequest = []
    ∧ (handleBook b ⟨.error f, g⟩).1.filter isGraphRequest = []
    ∧ (handleRooms ⟨.error f, g⟩).2 = .error f
    ∧ (handleBook b ⟨.error f, g⟩).2 = .error f := by
  have htok : isGraphRequest tokenRequest = false := by decide
  refine ⟨rfl, rfl, ?_, ?_, rfl, rfl⟩ <;>
    simp [handleRooms, handleBook, getToken, List.filter, htok]

/-- C5: every invocation of either handler performs exactly one
token-acquisition call, and two consecutive invocations perform two —
the credential is re-acquired every time, never cached or reused. -/
theorem one_token_call_per_invocation (env env2 : Env) (b b2 : JsValue) :
    countIdentityCalls (handleRooms env).1 = 1
    ∧ countIdentityCalls (handleBook b env).1 = 1
    ∧ countIdentityCalls ((handleRooms env).1 ++ (handleRooms env2).1) = 2
    ∧ countIdentityCalls ((handleRooms env).1 ++ (handleBook b env2).1) = 2
    ∧ countIdentityCalls ((handleBook b env).1 ++ (handleBook b2 env2).1)
      = 2 := by
  refine ⟨countIdentityCalls_handleRooms env,
    countIdentityCalls_handleBook b env, ?_, ?_, ?_⟩ <;>
    rw [countIdentityCalls_append] <;>
    simp [countIdentityCalls_handleRooms, countIdentityCalls_handleBook]

/-- C6: `bookRoom` is not idempotent: two identical consecutive booking
calls put two authenticated calendar writes on the wire, each call
returns its own upstream response body, and when the upstream creates
two distinct events the caller sees two distinct booking results —
nothing deduplicates the repeated identical request. -/
theorem book_not_idempotent (u r s e : String) (tok1 tok2 m1 m2 : JsValue)
    (h : m1 ≠ m2) :
    (((handleBook (bookingBody u r s e) ⟨.ok tok1, .ok m1⟩).1
        ++ (handleBook (bookingBody u r s e) ⟨.ok tok2, .ok m2⟩).1).filter
        isAuthenticatedWrite).length = 2
    ∧ (handleBook (bookingBody u r s e) ⟨.ok tok1, .ok m1⟩).2
      = .ok ⟨200, m1⟩
    ∧ (handleBook (bookingBody u r s e) ⟨.ok tok2, .ok m2⟩).2
      = .ok ⟨200, m2⟩
    ∧ (handleBook (bookingBody u r s e) ⟨.ok tok1, .ok m1⟩).2
      ≠ (handleBook (bookingBody u r s e) ⟨.ok tok2, .ok m2⟩).2 := by
  refine ⟨?_, rfl, rfl, ?_⟩
  · simp [handleBook, getToken, List.filter_append, isAuthenticatedWrite,
      hasAuthorization, tokenRequest, bookRequest, bearerHeader, List.filter]
  · intro hc
    apply h
    simpa [handleBook, getToken] using hc

/-- C6 witness: with upstream event bodies "event-1" and "event-2", two
identical booking calls return distinct results. -/
theorem book_not_idempotent_witness :
    (JsValue.str "event-1" ≠ JsValue.str "event-2")
    ∧ (handleBook
        (bookingBody "alice@x.com" "room1@x.com"
          "2024-01-01T10:00:00Z" "2024-01-01T11:00:00Z")
        ⟨.ok (.obj [("access_token", .str "tok123")]),
          .ok (.str "event-1")⟩).2
      ≠ (handleBook
          (bookingBody "alice@x.com" "room1@x.com"
            "2024-01-01T10:00:00Z" "2024-01-01T11:00:00Z")
          ⟨.ok (.obj [("access_token", .str "tok123")]),
            .ok (.str "event-2")⟩).2 :=
  ⟨by simp,
   (book_not_idempotent "alice@x.com" "room1@x.com"
      "2024-01-01T10:00:00Z" "2024-01-01T11:00:00Z"
      (.obj [("access_token", .str "tok123")])
      (.obj [("access_token", .str "tok123")])
      (.str "event-1") (.str "event-2") (by simp)).2.2.2⟩

/-- C7: the first outbound request of every invocation of either handler
is the token acquisition — a POST to the identity host's
<tenant>/oauth2/v2.0/token path with a form-encoded body of exactly
client_id, client_secret, scope and grant_type=client_credentials — and
whenever the identity response's access_token field is the string t, the
subsequent Graph request of either handler carries the header
`Authorization: Bearer t`. -/
theorem token_request_shape_and_bearer (env : Env) (tok dir b : JsValue)
    (t : String) (h : jsField tok "access_token" = .str t) :
    (handleRooms env).1.head? = some tokenRequest
    ∧ (handleBook b env).1.head? = some tokenRequest
    ∧ tokenRequest.method = "POST"
    ∧ tokenRequest.url
      = "https://login.microsoftonline.com/" ++ TENANT_ID
        ++ "/oauth2/v2.0/token"
    ∧ tokenRequest.body = .form
        [ ("client_id", CLIENT_ID), ("client_secret", CLIENT_SECRET)
        , ("scope", "https://graph.microsoft.com/.default")
        , ("grant_type", "client_credentials") ]
    ∧ (handleRooms ⟨.ok tok, .ok dir⟩).1
      = [tokenRequest, roomsRequest (.str t)]
    ∧ (roomsRequest (.str t)).headers = [("Authorization", "Bearer " ++ t)]
    ∧ ∃ q, (handleBook b ⟨.ok tok, .ok dir⟩).1 = [tokenRequest, q]
        ∧ q.headers = [("Authorization", "Bearer " ++ t)] := by
  obtain ⟨tr, gr⟩ := env
  refine ⟨?_, ?_, rfl, rfl, rfl, ?_, ?_, ?_⟩
  · cases tr <;> cases gr <;> simp [handleRooms, getToken]
  · cases tr <;> cases gr <;> simp [handleBook, getToken]
  · simp [handleRooms, getToken, h]
  · simp [roomsRequest, bearerHeader, jsToString, jsElemToString]
  · exact ⟨bookRequest (jsField b "userEmail") (jsField b "roomEmail")
      (jsField b "start") (jsField b "end") (.str t),
      by simp [handleBook, getToken, h],
      by simp [bookRequest, bearerHeader, jsToString, jsElemToString]⟩

/-- C7 witness: with access_token "tok123" the rooms trace is the token
request followed by the directory read authenticated as Bearer tok123. -/
theorem token_request_shape_and_bearer_witness :
    jsField (.obj [("access_token", .str "tok123")]) "access_token"
      = .str "tok123"
    ∧ (handleRooms ⟨.ok (.obj [("access_token", .str "tok123")]),
        .ok .null⟩).1 = [tokenRequest, roomsRequest (.str "tok123")] :=
  ⟨rfl,
   (token_request_shape_and_bearer ⟨.ok .null, .ok .null⟩
      (.obj [("access_token", .str "tok123")]) .null .null "tok123"
      rfl).2.2.2.2.2.1⟩

/-- C8: statelessness and determinism: running a sequence of incoming
calls is exactly running each one on its own, so the outbound requests
and the result of an invocation are a function of its own caller input
and upstream responses only — identical under any two prior histories. -/
theorem invocation_independent_of_history (h1 h2 : List Invocation)
    (i : Invocation) :
    runAll (h1 ++ [i]) = runAll h1 ++ [runOne i]
    ∧ (runAll (h1 ++ [i])).getLast? = some (runOne i)
    ∧ (runAll (h2 ++ [i])).getLast? = some (runOne i) := by
  refine ⟨?_, ?_, ?_⟩ <;> simp [runAll]

/-- C9: whatever the caller sends, the calendar-event body of the single
authenticated write carries the constants subject = "Room Reservation",
isOnlineMeeting = true and onlineMeetingProvider = "teamsForBusiness";
they do not depend on any caller input. -/
theorem event_constants_independent_of_input (b tok meet : JsValue) :
    ∃ q, (handleBook b ⟨.ok tok, .ok meet⟩).1.filter isAuthenticatedWrite
        = [q]
      ∧ ∃ ev, q.body = .json ev
        ∧ jsField ev "subject" = .str "Room Reservation"
        ∧ jsField ev "isOnlineMeeting" = .bool true
        ∧ jsField ev "onlineMeetingProvider" = .str "teamsForBusiness" := by
  refine ⟨bookRequest (jsField b "userEmail") (jsField b "roomEmail")
    (jsField b "start") (jsField b "end") (jsField tok "access_token"),
    ?_, eventBody (jsField b "roomEmail") (jsField b "start")
      (jsField b "end"), rfl, rfl, rfl, rfl⟩
  simp [handleBook, getToken, isAuthenticatedWrite, hasAuthorization,
    tokenRequest, bookRequest, bearerHeader, List.filter]

/-- C10: the caller-supplied userEmail is interpolated into the outbound
URL with no encoding, validation or presence check: whenever the request
body's userEmail field is the string u, the calendar write targets
`https://graph.microsoft.com/v1.0/users/u/events` verbatim, and when the
field is absent the path segment is the literal string "undefined". -/
theorem user_email_unencoded_in_url (b tok meet : JsValue)
    (u r s e : String) (h : jsField b "userEmail" = .str u) :
    (∃ q, (handleBook b ⟨.ok tok, .ok meet⟩).1 = [tokenRequest, q]
      ∧ q.url = "https://graph.microsoft.com/v1.0/users/" ++ u ++ "/events")
    ∧ (∃ q, (handleBook
          (.obj [("roomEmail", .str r), ("start", .str s), ("end", .str e)])
          ⟨.ok tok, .ok meet⟩).1 = [tokenRequest, q]
      ∧ q.url = "https://graph.microsoft.com/v1.0/users/undefined/events")
    := by
  constructor
  · refine ⟨bookRequest (.str u) (jsField b "roomEmail") (jsField b "start")
      (jsField b "end") (jsField tok "access_token"), ?_, ?_⟩
    · simp [handleBook, getToken, h]
    · simp [bookRequest, eventsUrl, jsToString, jsElemToString]
  · refine ⟨bookRequest .undef (.str r) (.str s) (.str e)
      (jsField tok "access_token"), ?_, ?_⟩
    · simp [handleBook, getToken, jsField]
    · show eventsUrl .undef = _
      rw [eventsUrl]
      decide

/-- C10 witness: a concrete booking body with userEmail "alice@x.com"
yields a calendar write on alice's events path. -/
theorem user_email_unencoded_in_url_witness :
    jsField (bookingBody "alice@x.com" "room1@x.com" "s1" "e1") "userEmail"
      = .str "alice@x.com"
    ∧ ∃ q, (handleBook
        (bookingBody "alice@x.com" "room1@x.com" "s1" "e1")
        ⟨.ok .null, .ok .null⟩).1 = [tokenRequest, q]
      ∧ q.url = "https://graph.microsoft.com/v1.0/users/" ++ "alice@x.com"
          ++ "/events" :=
  ⟨rfl,
   (user_email_unencoded_in_url
      (bookingBody "alice@x.com" "room1@x.com" "s1" "e1") .null .null
      "alice@x.com" "r" "s" "e" rfl).1⟩

end BookingRelay
